import Mathlib

/-
  Verification development for the money_manager repository.

  The data model, repository operations, balance engine and importer logic
  are embedded shallowly from the Python source:
    - backend/app/models.py    (entities, hybrid balance properties)
    - backend/app/crud.py      (list/create operations)
    - backend/app/__init__.py  (API-level create operations with error
                                classification)
    - importers/base.py        (BaseImporter.import_data / _gen_db_data)
    - importers/revolut.py     (RevolutImporter._import_data)

  Monetary amounts are `Numeric(20, 2)` fixed-point decimals in the source;
  they are represented here as integers counted in cents (scale 2), which
  makes the decimal arithmetic exact, as in the source.  Timestamps are
  opaque and represented as integers.  Database-assigned primary keys are
  modelled as 1-based positional ids (rows are never deleted in scope, so
  `length + 1` coincides with the autoincrement behaviour).
-/

namespace MoneyManager

/-- Currency enumeration, models.py lines 23-26. -/
inductive Currency where
  | EUR
  | USD
  | GBP
deriving DecidableEq

/-- Operation (transaction type) enumeration, models.py lines 29-37. -/
inductive Operation where
  | DEP
  | WDR
  | TRN
  | INC
  | PAY
  | REF
  | BAL
  | OTH
deriving DecidableEq

/-- Flow lifecycle state enumeration, models.py lines 40-43. -/
inductive State where
  | CPL
  | RVT
  | PDG
deriving DecidableEq

/-- Account row, models.py lines 46-54. -/
structure Account where
  id : Nat
  name : String
deriving DecidableEq

/-- Wallet row, models.py lines 57-69 (derived balances are functions below,
not fields, since the source computes them on every read). -/
structure Wallet where
  id : Nat
  name : String
  account_id : Nat
  currency : Currency
deriving DecidableEq

/-- Transaction row, models.py lines 99-112. -/
structure Transaction where
  id : Nat
  type : Operation
  date : Int
  description : Option String
deriving DecidableEq

/-- Flow row, models.py lines 115-130.  `amount` is in cents. -/
structure Flow where
  id : Nat
  wallet_id : Nat
  amount : Int
  state : State
  transaction_id : Nat
deriving DecidableEq

/-- The persistent store: the four relational tables of database.py /
models.py, each a list in insertion order. -/
structure Store where
  accounts : List Account
  wallets : List Wallet
  transactions : List Transaction
  flows : List Flow
deriving DecidableEq

/-- The `flows` relationship of a wallet (models.py line 65): all flow rows
whose `wallet_id` equals this wallet's id. -/
def Wallet.rel_flows (s : Store) (w : Wallet) : List Flow :=
  s.flows.filter (fun f => decide (f.wallet_id = w.id))

/-- Wallet.balance, Python hybrid-property form, models.py lines 71-73:
sum of `flow.amount` over `self.flows` where `flow.state == State.CPL`. -/
def Wallet.balance (s : Store) (w : Wallet) : Int :=
  (((Wallet.rel_flows s w).filter (fun f => decide (f.state = State.CPL))).map
    Flow.amount).sum

/-- Wallet.pending_balance, Python hybrid-property form, models.py lines
83-85: sum of `flow.amount` over `self.flows` where
`flow.state != State.RVT`. -/
def Wallet.pending_balance (s : Store) (w : Wallet) : Int :=
  (((Wallet.rel_flows s w).filter (fun f => decide (f.state ≠ State.RVT))).map
    Flow.amount).sum

/-
  SQL-expression forms of the balances (models.py lines 75-81 and 87-93).

  The source builds the aggregate's WHERE clause with the Python keyword
  `and` between two SQLAlchemy comparison objects:
      Flow.wallet_id == cls.id and Flow.state == State.CPL
  Python first takes `bool` of the left comparison.  SQLAlchemy's
  BinaryExpression defines truthiness for `==` / `!=` comparisons as
  identity of the two compared objects (hash equality of the originals):
  distinct column objects (or a column and an enum literal) are never
  identical, so an `==` comparison is falsy and a `!=` comparison is
  truthy.  `x and y` returns `y` when `x` is truthy and `x` otherwise.
  The tiny condition AST below reproduces exactly this evaluation.
-/

/-- A WHERE-clause condition as written in the balance expressions of
models.py: either the column comparison `Flow.wallet_id == cls.id`, or a
comparison of the `Flow.state` column against a state literal. -/
inductive SqlCond where
  | flowWalletIdEqWalletId
  | flowStateEq (v : State)
  | flowStateNe (v : State)
deriving DecidableEq

/-- Python truthiness of a SQLAlchemy binary comparison: identity of the
compared objects for `==`, its negation for `!=`.  The two columns in
`Flow.wallet_id == cls.id` are distinct objects, as are a column and an
enum literal, so every `==` comparison here is falsy and every `!=`
comparison truthy. -/
def SqlCond.truthy : SqlCond → Bool
  | .flowWalletIdEqWalletId => false
  | .flowStateEq _ => false
  | .flowStateNe _ => true

/-- The Python expression `x and y`: `y` when `x` is truthy, else `x`. -/
def pyAnd (x y : SqlCond) : SqlCond :=
  if x.truthy then y else x

/-- Evaluation of a condition against a candidate flow row, for a given
wallet row (the correlated `cls.id`). -/
def SqlCond.eval (c : SqlCond) (w : Wallet) (f : Flow) : Bool :=
  match c with
  | .flowWalletIdEqWalletId => decide (f.wallet_id = w.id)
  | .flowStateEq v => decide (f.state = v)
  | .flowStateNe v => decide (f.state ≠ v)

/-- The WHERE clause of the balance expression, models.py line 79:
`Flow.wallet_id == cls.id and Flow.state == State.CPL` under Python
`and` evaluation. -/
def balance_where : SqlCond :=
  pyAnd SqlCond.flowWalletIdEqWalletId (SqlCond.flowStateEq State.CPL)

/-- The WHERE clause of the pending_balance expression, models.py line 91:
`Flow.wallet_id == cls.id and Flow.state != State.RVT` under Python
`and` evaluation. -/
def pending_balance_where : SqlCond :=
  pyAnd SqlCond.flowWalletIdEqWalletId (SqlCond.flowStateNe State.RVT)

/-- Wallet.balance, SQL-expression form, models.py lines 75-81:
`select(coalesce(sum(Flow.amount), 0)).where(...)`.  The sum of an empty
row set is NULL and coalesced to 0; the Lean list sum of an empty list is
0 directly. -/
def Wallet.balance_expr (s : Store) (w : Wallet) : Int :=
  ((s.flows.filter (fun f => balance_where.eval w f)).map Flow.amount).sum

/-- Wallet.pending_balance, SQL-expression form, models.py lines 87-93. -/
def Wallet.pending_balance_expr (s : Store) (w : Wallet) : Int :=
  ((s.flows.filter (fun f => pending_balance_where.eval w f)).map
    Flow.amount).sum

/-
  Repository operations (crud.py) and their API-level error classification
  (backend/app/__init__.py).  A failed create raises IntegrityError inside
  the session; the API boundary classifies it by inspecting the message
  ("UNIQUE" -> conflict, "FOREIGN KEY" -> not found, otherwise internal)
  and the session never commits the row, so an error outcome carries no
  updated store: `Except.error` models "nothing persisted".
-/

/-- Error taxonomy of spec section 7, as classified at the API boundary in
backend/app/__init__.py (409 conflict, 404 not found, 500 internal). -/
inductive ApiError where
  | ConflictError
  | NotFoundError
  | InternalError
deriving DecidableEq

/-- Next autoincrement id for accounts (rows are never deleted). -/
def next_account_id (s : Store) : Nat := s.accounts.length + 1

/-- Next autoincrement id for wallets. -/
def next_wallet_id (s : Store) : Nat := s.wallets.length + 1

/-- Next autoincrement id for transactions. -/
def next_transaction_id (s : Store) : Nat := s.transactions.length + 1

/-- Next autoincrement id for flows. -/
def next_flow_id (s : Store) : Nat := s.flows.length + 1

/-- Whether an account name is already taken (the UNIQUE constraint on
accounts.name, models.py line 49). -/
def account_name_taken (s : Store) (name : String) : Bool :=
  s.accounts.any (fun a => decide (a.name = name))

/-- Whether an account row with the given id exists (FK target of
wallets.account_id). -/
def account_exists (s : Store) (aid : Nat) : Bool :=
  s.accounts.any (fun a => decide (a.id = aid))

/-- Whether a wallet (name, account_id) pair is already taken (the
unique_wallet_name_for_account constraint, models.py lines 67-69). -/
def wallet_name_taken (s : Store) (name : String) (aid : Nat) : Bool :=
  s.wallets.any (fun w => decide (w.name = name ∧ w.account_id = aid))

/-- Whether a wallet row with the given id exists (FK target of
flows.wallet_id). -/
def wallet_exists (s : Store) (wid : Nat) : Bool :=
  s.wallets.any (fun w => decide (w.id = wid))

/-- Whether a transaction row with the given id exists (FK target of
flows.transaction_id). -/
def transaction_exists (s : Store) (tid : Nat) : Bool :=
  s.transactions.any (fun t => decide (t.id = tid))

/-- create_account: crud.py lines 6-11 plus the classification in
backend/app/__init__.py lines 23-33.  A duplicate name violates the
UNIQUE constraint and is classified as a conflict; on success the row is
committed with its assigned id. -/
def create_account (s : Store) (name : String) :
    Except ApiError (Store × Account) :=
  if account_name_taken s name then
    .error ApiError.ConflictError
  else
    let a : Account := ⟨next_account_id s, name⟩
    .ok ({ s with accounts := s.accounts ++ [a] }, a)

/-- create_wallet: crud.py lines 18-23 plus the classification in
backend/app/__init__.py lines 41-55.  The UNIQUE branch is tested before
the FOREIGN KEY branch, as in the source's if-chain. -/
def create_wallet (s : Store) (name : String) (aid : Nat) (c : Currency) :
    Except ApiError (Store × Wallet) :=
  if wallet_name_taken s name aid then
    .error ApiError.ConflictError
  else if account_exists s aid then
    let w : Wallet := ⟨next_wallet_id s, name, aid, c⟩
    .ok ({ s with wallets := s.wallets ++ [w] }, w)
  else
    .error ApiError.NotFoundError

/-- create_transaction: crud.py lines 33-38 (no constraints can fail). -/
def create_transaction (s : Store) (ty : Operation) (date : Int)
    (descr : Option String) : Store × Transaction :=
  let t : Transaction := ⟨next_transaction_id s, ty, date, descr⟩
  ({ s with transactions := s.transactions ++ [t] }, t)

/-- create_flow: crud.py lines 55-60 plus the classification in
backend/app/__init__.py lines 85-100.  A missing wallet or transaction
violates a FOREIGN KEY constraint, classified as not found.  The API
payload (schemas.FlowCreate) has no state field, so the column default
CPL applies (models.py line 120). -/
def create_flow (s : Store) (amount : Int) (wid : Nat) (tid : Nat) :
    Except ApiError (Store × Flow) :=
  if wallet_exists s wid then
    if transaction_exists s tid then
      let f : Flow := ⟨next_flow_id s, wid, amount, State.CPL, tid⟩
      .ok ({ s with flows := s.flows ++ [f] }, f)
    else
      .error ApiError.NotFoundError
  else
    .error ApiError.NotFoundError

/-- Python truthiness of the optional integer query parameter
`account_id` in get_wallets (crud.py line 28, `if account_id:`): None is
falsy and so is 0. -/
def py_truthy_opt_nat : Option Nat → Bool
  | none => false
  | some n => decide (n ≠ 0)

/-- get_wallets: crud.py lines 26-30.  The equality filter on account_id
is applied only when the parameter is truthy, then offset/limit. -/
def get_wallets (s : Store) (skip limit : Nat) (account_id : Option Nat) :
    List Wallet :=
  let q :=
    if py_truthy_opt_nat account_id then
      s.wallets.filter (fun w => decide (w.account_id = account_id.getD 0))
    else
      s.wallets
  (q.drop skip).take limit

/-- get_transactions: crud.py lines 41-52.  The wallet filter references
Flow.wallet_id without joining flows to transactions, so SQLAlchemy emits
`FROM transactions, flows WHERE flows.wallet_id = w`: a cartesian product
in which every transaction row is paired with every flow row matching the
wallet, then offset/limit over the product rows. -/
def get_transactions (s : Store) (skip limit : Nat)
    (wallet_id : Option Nat) : List Transaction :=
  match wallet_id with
  | none => (s.transactions.drop skip).take limit
  | some w =>
      let rows := s.transactions.flatMap (fun t =>
        (s.flows.filter (fun f => decide (f.wallet_id = w))).map (fun _ => t))
      (rows.drop skip).take limit

/-
  Import adapter (importers/base.py).  An importer's parse phase fills the
  in-memory `_wallets` mapping; `import_data` then opens a transaction,
  runs `_gen_db_data` and commits, rolling the whole batch back on any
  exception.  The in-memory shape is modelled by the descriptor structures
  below (the comment block at base.py lines 8-22 documents this shape).
-/

/-- One flow descriptor of the in-memory `_wallets` mapping (base.py
lines 13-19): type, date, description, amount, state. -/
structure FlowDesc where
  type : Operation
  date : Int
  description : String
  amount : Int
  state : State
deriving DecidableEq

/-- One wallet descriptor of the in-memory `_wallets` mapping (base.py
lines 9-21): name, currency and the ordered flow descriptors. -/
structure WalletDesc where
  name : String
  currency : Currency
  flows : List FlowDesc
deriving DecidableEq

/-- A fully parsed import batch: the importer's `_account_name` and the
wallet descriptors of `_wallets`, in insertion order. -/
structure ImportBatch where
  account_name : String
  wallets : List WalletDesc
deriving DecidableEq

/-- One Transaction/Flow pair created for one flow descriptor (base.py
lines 64-76): a fresh transaction from the descriptor's type, date and
description, and a flow against the given wallet referencing it. -/
def add_flow_pair (s : Store) (wid : Nat) (fd : FlowDesc) : Store :=
  let t : Transaction :=
    ⟨next_transaction_id s, fd.type, fd.date, some fd.description⟩
  let f : Flow := ⟨next_flow_id s, wid, fd.amount, fd.state, t.id⟩
  { s with transactions := s.transactions ++ [t], flows := s.flows ++ [f] }

/-- Creation of one wallet and its Transaction/Flow pairs (base.py lines
53-81).  The wallet rows are inserted under the unique
(name, account_id) constraint, which is the only constraint that can fail
during a batch (the account was resolved, and the pairs reference the
fresh wallet and transaction directly). -/
def add_wallet_with_flows (s : Store) (aid : Nat) (wd : WalletDesc) :
    Except ApiError Store :=
  if wallet_name_taken s wd.name aid then
    .error ApiError.ConflictError
  else
    let w : Wallet := ⟨next_wallet_id s, wd.name, aid, wd.currency⟩
    let s1 := { s with wallets := s.wallets ++ [w] }
    .ok (wd.flows.foldl (fun st fd => add_flow_pair st w.id fd) s1)

/-- Account resolution of base.py lines 46-51: query the account by name
and create it when absent; returns the store and the resolved id. -/
def resolve_account (s : Store) (name : String) : Store × Nat :=
  match s.accounts.find? (fun a => decide (a.name = name)) with
  | some a => (s, a.id)
  | none =>
      let a : Account := ⟨next_account_id s, name⟩
      ({ s with accounts := s.accounts ++ [a] }, a.id)

/-- BaseImporter._gen_db_data (base.py lines 45-83): resolve the account,
then create every wallet descriptor with its pairs, stopping at the first
failure. -/
def gen_db_data (s : Store) (b : ImportBatch) : Except ApiError Store :=
  let (s1, aid) := resolve_account s b.account_name
  b.wallets.foldlM (fun st wd => add_wallet_with_flows st aid wd) s1

/-- BaseImporter.import_data (base.py lines 34-43), after the in-memory
parse phase: begin a transaction, generate the rows, commit; on any
failure roll back (the store is unchanged) and re-raise the error. -/
def import_data (s : Store) (b : ImportBatch) : Store × Option ApiError :=
  match gen_db_data s b with
  | .ok s' => (s', none)
  | .error e => (s, some e)

/-
  Revolut importer (importers/revolut.py).
-/

/-- Vendor transaction-type vocabulary, revolut.py lines 15-23 (class
name `Type` in the source, which is a reserved word here). -/
inductive RevolutType where
  | TOPUP
  | CARD_PAYMENT
  | TRANSFER
  | REFUND
  | EXCHANGE
  | CARD_CREDIT
  | CARD_REFUND
  | FEE
deriving DecidableEq

/-- Vendor state vocabulary, revolut.py lines 26-29 (class name `State`
in the source). -/
inductive RevolutState where
  | PENDING
  | COMPLETED
  | REVERTED
deriving DecidableEq

/-- One parsed CSV record, revolut.py lines 32-46 (class RevolutFlow).
Amounts are cents; dates are opaque integers. -/
structure RevolutFlow where
  type : RevolutType
  product : String
  started_date : Int
  completed_date : Option Int
  description : String
  amount : Int
  fee : Int
  currency : Currency
  state : RevolutState
  balance : Option Int
deriving DecidableEq

/-- Vendor-to-canonical type mapping `_type_map`, revolut.py lines 49-58. -/
def type_map : RevolutType → Operation
  | .TOPUP => Operation.DEP
  | .CARD_PAYMENT => Operation.PAY
  | .TRANSFER => Operation.TRN
  | .REFUND => Operation.REF
  | .EXCHANGE => Operation.TRN
  | .CARD_CREDIT => Operation.INC
  | .CARD_REFUND => Operation.REF
  | .FEE => Operation.PAY

/-- Vendor-to-canonical state mapping `_state_map`, revolut.py lines
61-65. -/
def state_map : RevolutState → State
  | .PENDING => State.PDG
  | .COMPLETED => State.CPL
  | .REVERTED => State.RVT

/-- The flow descriptors appended for one source record by the loop body
of RevolutImporter._import_data (revolut.py lines 87-105): the mapped
primary flow, followed by a PAY flow of the negated fee when the fee is
truthy (a Decimal is truthy exactly when non-zero). -/
def revolut_record_flows (r : RevolutFlow) : List FlowDesc :=
  [⟨type_map r.type, r.started_date, r.description, r.amount,
    state_map r.state⟩] ++
  (if r.fee ≠ 0 then
    [⟨Operation.PAY, r.started_date, "Fee", -r.fee, state_map r.state⟩]
  else
    [])

/-
  Helper lemmas about the state-filtered amount sums.
-/

/-- Summing the amounts of the CPL-filtered flows is the same as summing a
per-flow contribution that is 0 for PDG and RVT flows. -/
lemma sum_filter_cpl_eq_sum_ite (L : List Flow) :
    ((L.filter (fun f => decide (f.state = State.CPL))).map Flow.amount).sum
      = (L.map (fun f => if f.state = State.CPL then f.amount else 0)).sum := by
  induction L with
  | nil => rfl
  | cons a t ih =>
    by_cases h : a.state = State.CPL
    · simp [List.filter_cons, h, ih]
    · simp [List.filter_cons, h, ih]

/-- Summing the amounts of the non-RVT flows is the same as summing a
per-flow contribution that is 0 for RVT flows. -/
lemma sum_filter_nrvt_eq_sum_ite (L : List Flow) :
    ((L.filter (fun f => decide (f.state ≠ State.RVT))).map Flow.amount).sum
      = (L.map (fun f => if f.state = State.RVT then 0 else f.amount)).sum := by
  induction L with
  | nil => rfl
  | cons a t ih =>
    simp only [decide_not] at ih ⊢
    by_cases h : a.state = State.RVT
    · simp [List.filter_cons, h, ih]
    · simp [List.filter_cons, h, ih]

/-- The non-RVT sum exceeds the CPL sum by exactly the PDG sum. -/
lemma sum_nrvt_sub_cpl (L : List Flow) :
    ((L.filter (fun f => decide (f.state ≠ State.RVT))).map Flow.amount).sum
      - ((L.filter (fun f => decide (f.state = State.CPL))).map Flow.amount).sum
      = ((L.filter (fun f => decide (f.state = State.PDG))).map Flow.amount).sum := by
  induction L with
  | nil => rfl
  | cons a t ih =>
    simp only [decide_not] at ih ⊢
    cases h : a.state <;> simp [List.filter_cons, h] <;> omega

/-- C1: for every wallet, the derived balance equals the exact sum of the
amounts of its CPL-state flows; PDG and RVT flows contribute nothing, and
the balance is 0 when the wallet has no flows at all or no CPL flow. -/
theorem C1_balance_is_completed_sum :
    (∀ (s : Store) (w : Wallet),
        Wallet.balance s w =
          ((Wallet.rel_flows s w).map
            (fun f => if f.state = State.CPL then f.amount else 0)).sum)
  ∧ (∀ (s : Store) (w : Wallet),
        Wallet.rel_flows s w = [] → Wallet.balance s w = 0)
  ∧ (∀ (s : Store) (w : Wallet),
        (Wallet.rel_flows s w).filter (fun f => decide (f.state = State.CPL))
          = [] →
        Wallet.balance s w = 0) := by
  refine ⟨?_, ?_, ?_⟩
  · intro s w
    exact sum_filter_cpl_eq_sum_ite (Wallet.rel_flows s w)
  · intro s w h
    simp [Wallet.balance, h]
  · intro s w h
    simp [Wallet.balance, h]

/-- Witness for C1 on a concrete store with no flows. -/
theorem C1_witness :
    Wallet.balance ⟨[], [], [], []⟩ ⟨1, "w", 1, Currency.EUR⟩ = 0 :=
  C1_balance_is_completed_sum.2.1 ⟨[], [], [], []⟩ ⟨1, "w", 1, Currency.EUR⟩
    rfl

/-- C2: for every wallet, the derived pending balance equals the exact sum
of the amounts of its non-RVT flows (CPL and PDG both included), and is 0
when no flow qualifies. -/
theorem C2_pending_balance_is_nonreverted_sum :
    (∀ (s : Store) (w : Wallet),
        Wallet.pending_balance s w =
          ((Wallet.rel_flows s w).map
            (fun f => if f.state = State.RVT then 0 else f.amount)).sum)
  ∧ (∀ (s : Store) (w : Wallet),
        (Wallet.rel_flows s w).filter (fun f => decide (f.state ≠ State.RVT))
          = [] →
        Wallet.pending_balance s w = 0) := by
  refine ⟨?_, ?_⟩
  · intro s w
    exact sum_filter_nrvt_eq_sum_ite (Wallet.rel_flows s w)
  · intro s w h
    unfold Wallet.pending_balance
    rw [h]
    rfl

/-- Witness for C2 on a concrete store whose only flow is reverted. -/
theorem C2_witness :
    Wallet.pending_balance ⟨[], [], [], [⟨1, 1, 40, State.RVT, 1⟩]⟩
      ⟨1, "w", 1, Currency.EUR⟩ = 0 :=
  C2_pending_balance_is_nonreverted_sum.2
    ⟨[], [], [], [⟨1, 1, 40, State.RVT, 1⟩]⟩ ⟨1, "w", 1, Currency.EUR⟩
    (by decide)

/-- C9: the pending balance exceeds the balance by exactly the sum of the
PDG-state amounts, hence pending_balance is at least balance whenever all
PDG amounts are non-negative; the inequality is not a general law (a
wallet with a negative pending flow violates it). -/
theorem C9_pending_minus_balance_is_pdg_sum :
    (∀ (s : Store) (w : Wallet),
        Wallet.pending_balance s w - Wallet.balance s w =
          (((Wallet.rel_flows s w).filter
              (fun f => decide (f.state = State.PDG))).map Flow.amount).sum)
  ∧ (∀ (s : Store) (w : Wallet),
        (∀ f ∈ Wallet.rel_flows s w, f.state = State.PDG → 0 ≤ f.amount) →
        Wallet.balance s w ≤ Wallet.pending_balance s w)
  ∧ (∃ (s : Store) (w : Wallet),
        Wallet.pending_balance s w < Wallet.balance s w) := by
  refine ⟨?_, ?_, ?_⟩
  · intro s w
    exact sum_nrvt_sub_cpl (Wallet.rel_flows s w)
  · intro s w h
    have hd : Wallet.pending_balance s w - Wallet.balance s w =
        (((Wallet.rel_flows s w).filter
            (fun f => decide (f.state = State.PDG))).map Flow.amount).sum :=
      sum_nrvt_sub_cpl (Wallet.rel_flows s w)
    have hge : 0 ≤ (((Wallet.rel_flows s w).filter
        (fun f => decide (f.state = State.PDG))).map Flow.amount).sum := by
      refine List.sum_nonneg ?_
      intro x hx
      obtain ⟨f, hf, rfl⟩ := List.mem_map.mp hx
      obtain ⟨hmem, hpdg⟩ := List.mem_filter.mp hf
      exact h f hmem (by simpa using hpdg)
    linarith [hd, hge]
  · exact ⟨⟨[], [], [], [⟨1, 1, -5, State.PDG, 1⟩]⟩,
      ⟨1, "w", 1, Currency.EUR⟩, by decide⟩

/-- Witness for C9 on a concrete store with one non-negative pending
flow. -/
theorem C9_witness :
    Wallet.balance ⟨[], [], [], [⟨1, 1, 3, State.PDG, 1⟩]⟩
        ⟨1, "w", 1, Currency.EUR⟩ ≤
      Wallet.pending_balance ⟨[], [], [], [⟨1, 1, 3, State.PDG, 1⟩]⟩
        ⟨1, "w", 1, Currency.EUR⟩ :=
  C9_pending_minus_balance_is_pdg_sum.2.1
    ⟨[], [], [], [⟨1, 1, 3, State.PDG, 1⟩]⟩ ⟨1, "w", 1, Currency.EUR⟩
    (by decide)

/-- Concrete store for the C3 evaluation: one account, one wallet, and two
flows on that wallet, one pending of 100 cents and one reverted of 70
cents. -/
def storeC3 : Store :=
  ⟨[⟨1, "a"⟩], [⟨1, "W", 1, Currency.EUR⟩], [⟨1, Operation.PAY, 0, none⟩],
   [⟨1, 1, 100, State.PDG, 1⟩, ⟨2, 1, 70, State.RVT, 1⟩]⟩

/-- The wallet row of storeC3. -/
def walletC3 : Wallet := ⟨1, "W", 1, Currency.EUR⟩

/-- C3: the claim that the SQL-expression forms agree with the per-row
Python forms is false.  The Python keyword `and` evaluates the left
comparison's truthiness (false for `==` of two distinct columns) and
returns the left operand, so both WHERE clauses collapse to the bare
wallet filter and the state condition is dropped: the expression forms sum
all of the wallet's flows.  On storeC3 the expression balance is 170
while the per-row balance is 0, and the expression pending balance is 170
while the per-row pending balance is 100. -/
theorem C3_expression_form_diverges :
    balance_where = SqlCond.flowWalletIdEqWalletId
  ∧ pending_balance_where = SqlCond.flowWalletIdEqWalletId
  ∧ Wallet.balance_expr storeC3 walletC3 = 170
  ∧ Wallet.balance storeC3 walletC3 = 0
  ∧ Wallet.pending_balance_expr storeC3 walletC3 = 170
  ∧ Wallet.pending_balance storeC3 walletC3 = 100 := by
  decide

/-- Concrete store for the C4 evaluation: two transactions, each with one
flow, in two different wallets. -/
def storeC4 : Store :=
  ⟨[⟨1, "a"⟩], [⟨1, "w1", 1, Currency.EUR⟩, ⟨2, "w2", 1, Currency.EUR⟩],
   [⟨1, Operation.PAY, 0, none⟩, ⟨2, Operation.PAY, 0, none⟩],
   [⟨1, 1, 100, State.CPL, 1⟩, ⟨2, 2, 50, State.CPL, 2⟩]⟩

/-- C4: the claim that transaction listing filtered by wallet returns
exactly the transactions having a flow in that wallet is false.  The
query filters on Flow.wallet_id without joining flows to transactions,
producing a cartesian product: transaction 2 has no flow in wallet 1, yet
it is returned when listing transactions for wallet 1. -/
theorem C4_wallet_filter_is_cross_product :
    (⟨2, Operation.PAY, 0, none⟩ : Transaction) ∈
      get_transactions storeC4 0 100 (some 1)
  ∧ storeC4.flows.any
      (fun f => decide (f.transaction_id = 2 ∧ f.wallet_id = 1)) = false := by
  decide

/-- C10: listing wallets with the filter account_id = 0 behaves exactly
like listing with no filter, because the Python truthiness test
`if account_id:` treats 0 like None; by contrast, strict equality
filtering against account ids that are all at least 1 would produce the
empty list. -/
theorem C10_zero_account_id_filter :
    (∀ (s : Store) (skip limit : Nat),
        get_wallets s skip limit (some 0) = get_wallets s skip limit none)
  ∧ (∀ (s : Store) (skip limit : Nat),
        (∀ w ∈ s.wallets, 1 ≤ w.account_id) →
        ((s.wallets.filter
            (fun w => decide (w.account_id = 0))).drop skip).take limit
          = []) := by
  refine ⟨?_, ?_⟩
  · intro s skip limit
    rfl
  · intro s skip limit h
    have hf : s.wallets.filter (fun w => decide (w.account_id = 0)) = [] := by
      rw [List.filter_eq_nil_iff]
      intro w hw
      have h1 := h w hw
      simp only [decide_eq_true_eq]
      omega
    rw [hf]
    simp

/-- Witness for C10 on a concrete store with one wallet under account 1. -/
theorem C10_witness :
    (((⟨[⟨1, "a"⟩], [⟨1, "w", 1, Currency.EUR⟩], [], []⟩ :
        Store).wallets.filter
          (fun w => decide (w.account_id = 0))).drop 0).take 100 = [] :=
  C10_zero_account_id_filter.2
    ⟨[⟨1, "a"⟩], [⟨1, "w", 1, Currency.EUR⟩], [], []⟩ 0 100 (by decide)

/-- C5: uniqueness violations fail with a conflict and leave the store
unchanged (an error outcome persists nothing): after a successful account
creation the same name conflicts while the first row remains persisted;
after a successful wallet creation the same (name, account_id) pair
conflicts regardless of currency; and the same wallet name under a second,
different account still succeeds. -/
theorem C5_unique_constraints_conflict :
    (∀ (s : Store) (n : String) (s' : Store) (a : Account),
        create_account s n = .ok (s', a) →
        a ∈ s'.accounts ∧
          create_account s' n = .error ApiError.ConflictError)
  ∧ (∀ (s : Store) (n : String) (aid : Nat) (c c' : Currency) (s' : Store)
        (w : Wallet),
        create_wallet s n aid c = .ok (s', w) →
        create_wallet s' n aid c' = .error ApiError.ConflictError)
  ∧ (∀ (s : Store) (n : String) (a1 a2 : Nat) (c1 c2 : Currency) (s' : Store)
        (w : Wallet),
        a1 ≠ a2 →
        account_exists s a2 = true →
        wallet_name_taken s n a2 = false →
        create_wallet s n a1 c1 = .ok (s', w) →
        (create_wallet s' n a2 c2).isOk = true) := by
  refine ⟨?_, ?_, ?_⟩
  · intro s n s' a h
    unfold create_account at h
    by_cases hc : account_name_taken s n
    · rw [if_pos hc] at h
      exact absurd h (by simp)
    · rw [if_neg hc] at h
      simp only [Except.ok.injEq, Prod.mk.injEq] at h
      obtain ⟨hs, ha⟩ := h
      subst hs
      subst ha
      constructor
      · simp
      · unfold create_account
        rw [if_pos]
        unfold account_name_taken
        simp
  · intro s n aid c c' s' w h
    unfold create_wallet at h
    by_cases h1 : wallet_name_taken s n aid
    · rw [if_pos h1] at h
      exact absurd h (by simp)
    · rw [if_neg h1] at h
      by_cases h2 : account_exists s aid
      · rw [if_pos h2] at h
        simp only [Except.ok.injEq, Prod.mk.injEq] at h
        obtain ⟨hs, hw⟩ := h
        subst hs
        unfold create_wallet
        rw [if_pos]
        unfold wallet_name_taken
        simp
      · rw [if_neg h2] at h
        exact absurd h (by simp)
  · intro s n a1 a2 c1 c2 s' w hne hex htaken h
    unfold create_wallet at h
    by_cases h1 : wallet_name_taken s n a1
    · rw [if_pos h1] at h
      exact absurd h (by simp)
    · rw [if_neg h1] at h
      by_cases h2 : account_exists s a1
      · rw [if_pos h2] at h
        simp only [Except.ok.injEq, Prod.mk.injEq] at h
        obtain ⟨hs, hw⟩ := h
        subst hs
        have hta : wallet_name_taken
            { s with wallets :=
                s.wallets ++ [(⟨next_wallet_id s, n, a1, c1⟩ : Wallet)] }
            n a2 = false := by
          unfold wallet_name_taken at htaken ⊢
          show ((s.wallets ++ [(⟨next_wallet_id s, n, a1, c1⟩ : Wallet)]).any
            (fun x => decide (x.name = n ∧ x.account_id = a2))) = false
          rw [List.any_append, htaken]
          simp [hne]
        have hxa : account_exists
            { s with wallets :=
                s.wallets ++ [(⟨next_wallet_id s, n, a1, c1⟩ : Wallet)] }
            a2 = true := hex
        simp [create_wallet, hta, hxa, Except.isOk, Except.toBool]
      · rw [if_neg h2] at h
        exact absurd h (by simp)

/-- Witness for C5: creating account "A" twice from the empty store, the
second attempt conflicts while the first row is persisted. -/
theorem C5_witness :
    (⟨1, "A"⟩ : Account) ∈ (⟨[⟨1, "A"⟩], [], [], []⟩ : Store).accounts ∧
      create_account ⟨[⟨1, "A"⟩], [], [], []⟩ "A" =
        .error ApiError.ConflictError :=
  C5_unique_constraints_conflict.1 ⟨[], [], [], []⟩ "A"
    ⟨[⟨1, "A"⟩], [], [], []⟩ ⟨1, "A"⟩ rfl

/-- C6: a creation whose foreign key resolves to no row fails with the
not-found classification, and the error outcome persists no row: a wallet
under a nonexistent account, and a flow against a nonexistent wallet or
transaction. -/
theorem C6_missing_reference_not_found :
    (∀ (s : Store) (n : String) (aid : Nat) (c : Currency),
        wallet_name_taken s n aid = false →
        account_exists s aid = false →
        create_wallet s n aid c = .error ApiError.NotFoundError)
  ∧ (∀ (s : Store) (amount : Int) (wid tid : Nat),
        wallet_exists s wid = false ∨ transaction_exists s tid = false →
        create_flow s amount wid tid = .error ApiError.NotFoundError) := by
  refine ⟨?_, ?_⟩
  · intro s n aid c h1 h2
    unfold create_wallet
    rw [if_neg (by simp [h1]), if_neg (by simp [h2])]
  · intro s amount wid tid h
    unfold create_flow
    rcases h with h | h
    · rw [if_neg (by simp [h])]
    · by_cases hw : wallet_exists s wid
      · rw [if_pos hw, if_neg (by simp [h])]
      · rw [if_neg hw]

/-- Witness for C6: on the empty store, creating a wallet under account 1
and a flow against wallet 1 / transaction 1 both fail as not found. -/
theorem C6_witness :
    create_wallet ⟨[], [], [], []⟩ "w" 1 Currency.EUR =
        .error ApiError.NotFoundError ∧
      create_flow ⟨[], [], [], []⟩ 100 1 1 =
        .error ApiError.NotFoundError :=
  ⟨C6_missing_reference_not_found.1 ⟨[], [], [], []⟩ "w" 1 Currency.EUR
      (by decide) (by decide),
   C6_missing_reference_not_found.2 ⟨[], [], [], []⟩ 100 1 1
      (Or.inl (by decide))⟩

/-- C7: an import run is atomic after the parse phase: whenever any
generation step fails, the resulting store is exactly the input store
(full rollback, no account, wallet, transaction or flow of the batch
remains), and when generation succeeds the whole generated store becomes
visible at once. -/
theorem C7_import_batch_atomicity :
    (∀ (s : Store) (b : ImportBatch) (e : ApiError),
        (import_data s b).2 = some e → import_data s b = (s, some e))
  ∧ (∀ (s : Store) (b : ImportBatch) (s' : Store),
        gen_db_data s b = .ok s' → import_data s b = (s', none)) := by
  refine ⟨?_, ?_⟩
  · intro s b e h
    unfold import_data at h ⊢
    cases hg : gen_db_data s b with
    | ok s' =>
        rw [hg] at h
        simp at h
    | error e' =>
        rw [hg] at h
        have he : e' = e := by simpa using h
        subst he
        rfl
  · intro s b s' h
    unfold import_data
    rw [h]

/-- Witness for C7: importing a batch with two identically named wallet
descriptors from the empty store fails on the second wallet's uniqueness
constraint and rolls the whole batch back. -/
theorem C7_witness :
    import_data ⟨[], [], [], []⟩
        ⟨"Revolut", [⟨"W", Currency.EUR, []⟩, ⟨"W", Currency.EUR, []⟩]⟩ =
      (⟨[], [], [], []⟩, some ApiError.ConflictError) :=
  C7_import_batch_atomicity.1 ⟨[], [], [], []⟩
    ⟨"Revolut", [⟨"W", Currency.EUR, []⟩, ⟨"W", Currency.EUR, []⟩]⟩
    ApiError.ConflictError rfl

/-- Each Transaction/Flow pair insertion grows the transactions and flows
tables by exactly one row each. -/
lemma add_flow_pair_lengths (s : Store) (wid : Nat) (fd : FlowDesc) :
    (add_flow_pair s wid fd).transactions.length
        = s.transactions.length + 1
  ∧ (add_flow_pair s wid fd).flows.length = s.flows.length + 1 := by
  constructor <;> simp [add_flow_pair]

/-- Folding the pair insertion over a descriptor list grows both tables by
the number of descriptors. -/
lemma foldl_add_flow_pair_lengths (wid : Nat) (fds : List FlowDesc) :
    ∀ (st : Store),
      ((fds.foldl (fun s fd => add_flow_pair s wid fd) st).transactions.length
          = st.transactions.length + fds.length)
    ∧ ((fds.foldl (fun s fd => add_flow_pair s wid fd) st).flows.length
          = st.flows.length + fds.length) := by
  induction fds with
  | nil => intro st; simp
  | cons a t ih =>
      intro st
      have h1 := ih (add_flow_pair st wid a)
      have h2 := add_flow_pair_lengths st wid a
      simp only [List.foldl_cons, List.length_cons]
      omega

/-- C8: the Revolut importer turns a source record with a non-zero fee
into exactly two flow descriptors — the mapped primary flow and a PAY
flow of the negated fee with the record's started date and mapped state —
and a record with a zero fee into exactly one; a successful wallet
insertion then creates exactly one Transaction/Flow pair per descriptor. -/
theorem C8_revolut_fee_second_flow :
    (∀ r : RevolutFlow, r.fee ≠ 0 →
        revolut_record_flows r =
          [⟨type_map r.type, r.started_date, r.description, r.amount,
              state_map r.state⟩,
           ⟨Operation.PAY, r.started_date, "Fee", -r.fee,
              state_map r.state⟩])
  ∧ (∀ r : RevolutFlow, r.fee = 0 →
        revolut_record_flows r =
          [⟨type_map r.type, r.started_date, r.description, r.amount,
              state_map r.state⟩])
  ∧ (∀ (s : Store) (aid : Nat) (wd : WalletDesc) (s' : Store),
        add_wallet_with_flows s aid wd = .ok s' →
        s'.transactions.length = s.transactions.length + wd.flows.length ∧
          s'.flows.length = s.flows.length + wd.flows.length) := by
  refine ⟨?_, ?_, ?_⟩
  · intro r h
    unfold revolut_record_flows
    rw [if_pos h]
    rfl
  · intro r h
    unfold revolut_record_flows
    rw [if_neg (by simp [h])]
    rfl
  · intro s aid wd s' h
    unfold add_wallet_with_flows at h
    by_cases hc : wallet_name_taken s wd.name aid
    · rw [if_pos hc] at h
      exact absurd h (by simp)
    · rw [if_neg hc] at h
      simp only [Except.ok.injEq] at h
      subst h
      exact foldl_add_flow_pair_lengths (next_wallet_id s) wd.flows _

/-- Witness for C8 on a concrete card-payment record with a 30-cent fee. -/
theorem C8_witness :
    revolut_record_flows
        ⟨RevolutType.CARD_PAYMENT, "Current", 7, none, "coffee", -250, 30,
          Currency.EUR, RevolutState.COMPLETED, none⟩ =
      [⟨Operation.PAY, 7, "coffee", -250, State.CPL⟩,
       ⟨Operation.PAY, 7, "Fee", -30, State.CPL⟩] :=
  C8_revolut_fee_second_flow.1
    ⟨RevolutType.CARD_PAYMENT, "Current", 7, none, "coffee", -250, 30,
      Currency.EUR, RevolutState.COMPLETED, none⟩ (by decide)

end MoneyManager
